import Mathlib

/-!
Verification of the authenticated API client in `src/services/api.js`.

The development shallowly embeds:
* the credential store (`tokenManager` over the three `localStorage` keys),
* the request interceptor (`api.interceptors.request`),
* the response interceptor with its refresh-and-retry logic
  (`api.interceptors.response`),
* error normalization (`apiUtils.handleError`) and
  `apiUtils.isAuthenticated`.

Requests run on a single-threaded cooperative scheduler; the only
suspension points are the network calls (original request, refresh call,
retried request).  Each in-flight request is therefore modelled as a small
state machine (`PState`), and a run of the whole client is a fold of
deliveries of network results to the in-flight requests (`runWorld`).
-/

namespace ApiClient

/-- The persisted credential store: the view of `localStorage` through the
three keys `ai_agent_token`, `ai_agent_refresh_token` and `ai_agent_user`
used by `tokenManager`.  `localStorage` maps string keys to string values;
an absent entry is `none`.  The user profile is persisted in serialized form
(`JSON.stringify`), hence `userRaw : Option String`. -/
structure Store where
  token : Option String
  refreshToken : Option String
  userRaw : Option String
deriving Repr, DecidableEq

/-- Embedding of `tokenManager.getToken` (line 26). -/
def getToken (st : Store) : Option String := st.token

/-- Embedding of `tokenManager.setToken` (line 27). -/
def setToken (st : Store) (t : String) : Store := { st with token := some t }

/-- Embedding of `tokenManager.getRefreshToken` (line 30). -/
def getRefreshToken (st : Store) : Option String := st.refreshToken

/-- Embedding of `tokenManager.setRefreshToken` (line 31). -/
def setRefreshToken (st : Store) (t : String) : Store :=
  { st with refreshToken := some t }

/-- Effect of `localStorage.setItem(USER_KEY, s)` on the store: the raw
string written by `tokenManager.setUser` (line 38). -/
def setUserRaw (st : Store) (s : String) : Store := { st with userRaw := some s }

/-- Embedding of `tokenManager.setUser` (line 38): stores
`JSON.stringify(user)`.  The platform serializer `JSON.stringify` is not part
of the repository; it is modelled by an explicit `stringify` argument. -/
def setUser {User : Type} (stringify : User → String) (st : Store) (u : User) :
    Store :=
  setUserRaw st (stringify u)

/-- Embedding of `tokenManager.getUser` (lines 34-37):
`user ? JSON.parse(user) : null`.  An absent entry and the (falsy) empty
string both yield `null`; otherwise the stored string is deserialized.  The
platform deserializer `JSON.parse` is modelled by the `parse` argument. -/
def getUser {User : Type} (parse : String → Option User) (st : Store) :
    Option User :=
  match st.userRaw with
  | some s => if s = "" then none else parse s
  | none => none

/-- Embedding of `tokenManager.clearAll` (lines 41-45): all three entries
are removed. -/
def clearAll (_st : Store) : Store :=
  { token := none, refreshToken := none, userRaw := none }

/-- Store effect of `authAPI.login` (lines 109-111): the three writes
`setToken`, `setRefreshToken`, `setUser` performed in one synchronous
segment. -/
def writeRecord {User : Type} (stringify : User → String) (st : Store)
    (a r : String) (u : User) : Store :=
  setUser stringify (setRefreshToken (setToken st a) r) u

/-- Predicate: all three store entries are present (the authenticated shape
of the record from the data-model invariant). -/
def allPresent (st : Store) : Bool :=
  st.token.isSome && st.refreshToken.isSome && st.userRaw.isSome

/-- Predicate: all three store entries are absent (the unauthenticated shape
of the record). -/
def allAbsent (st : Store) : Bool :=
  st.token.isNone && st.refreshToken.isNone && st.userRaw.isNone

/-- Embedding of `apiUtils.isAuthenticated` (lines 329-331):
`!!tokenManager.getToken()`.  JavaScript double negation is `false` exactly
on `null` and on the empty string. -/
def isAuthenticated (st : Store) : Bool :=
  match getToken st with
  | some t => if t = "" then false else true
  | none => false

/-- An axios request configuration: its header object and the `_retry`
marker that the response interceptor sets (line 69). -/
structure Config where
  headers : List (String × String)
  retry : Bool
deriving Repr, DecidableEq

/-- Assignment `headers[k] = v` on a JavaScript header object: the entry for
`k` is replaced, every other entry is kept, and afterwards exactly one entry
for `k` exists. -/
def setHeader (hs : List (String × String)) (k v : String) :
    List (String × String) :=
  (k, v) :: hs.filter (fun p => !(p.1 == k))

/-- Embedding of the request interceptor (lines 49-60): the guard
`if (token)` is JavaScript truthiness, false on `null` and on the empty
string, so a truthy access token is attached as `Bearer` authorization and
otherwise the configuration passes unmodified.  The handler is a total
function: this stage never fails. -/
def requestInterceptor (st : Store) (cfg : Config) : Config :=
  match getToken st with
  | some t =>
    if t = "" then cfg
    else
      { cfg with headers := setHeader cfg.headers "Authorization" ("Bearer " ++ t) }
  | none => cfg

/-- Result of one network attempt as seen by the response interceptor:
a resolved response, an HTTP error response carrying a status, or a
transport failure with no response object at all. -/
inductive CallResult where
  | ok (status : Nat)
  | httpError (status : Nat)
  | networkError
deriving Repr, DecidableEq

/-- Result of the refresh call (lines 74-78): success carries the
`access_token` of the response body; failure carries the status of the
rejected refresh call (`none` for a transport failure). -/
inductive RefreshResult where
  | ok (accessToken : String)
  | error (status : Option Nat)
deriving Repr, DecidableEq

/-- Outcome delivered to the caller of a request: a resolved response, or a
rejected error whose `response?.status` is the given status (`none` when no
response was received). -/
inductive Outcome where
  | success (status : Nat)
  | failure (status : Option Nat)
deriving Repr, DecidableEq

/-- Outcome a caller observes for a network attempt that is not subject to
further interception (the retried request: its errors are rejected
unchanged because `_retry` is already set). -/
def respOutcome (res : CallResult) : Outcome :=
  match res with
  | CallResult.ok s => Outcome.success s
  | CallResult.httpError s => Outcome.failure (some s)
  | CallResult.networkError => Outcome.failure none

/-- State of one in-flight request between suspension points: awaiting the
original response, awaiting the refresh call issued on its behalf, awaiting
its single retried request, or finished with an outcome. -/
inductive PState where
  | sent (cfg : Config)
  | awaitingRefresh (cfg : Config)
  | retrying (cfg : Config)
  | done (outcome : Outcome)
deriving Repr, DecidableEq

/-- A network completion delivered to one in-flight request: the result of
the request it sent, or the result of the refresh call it awaits. -/
inductive Delivery where
  | response (res : CallResult)
  | refresh (res : RefreshResult)
deriving Repr, DecidableEq

/-- Effect of running one atomic segment of one request's handler: the new
store, the request's next state, and how many refresh calls, retried
requests and redirect-to-login signals the segment emitted. -/
structure StepResult where
  store : Store
  proc : PState
  refreshDelta : Nat
  retryDelta : Nat
  redirectDelta : Nat
deriving Repr, DecidableEq

/-- Embedding of the response-error interceptor's synchronous prefix
(lines 65-99) for an error whose `response?.status` is `status` (`none`
when no response was received).  On a first 401 it sets `_retry`, then
tests `if (refreshToken)` — JavaScript truthiness, false on `null` and on
the empty string: a truthy refresh token issues the refresh call (the
handler suspends at the `await` of line 74); a falsy one clears the store,
emits the redirect signal (lines 94-95) and rejects.  Every other error is
rejected unchanged (line 99). -/
def onResponseError (st : Store) (cfg : Config) (status : Option Nat) :
    StepResult :=
  match status with
  | some code =>
    if code = 401 ∧ cfg.retry = false then
      match getRefreshToken st with
      | some rt =>
        if rt = "" then
          { store := clearAll st, proc := PState.done (Outcome.failure (some code)),
            refreshDelta := 0, retryDelta := 0, redirectDelta := 1 }
        else
          { store := st, proc := PState.awaitingRefresh { cfg with retry := true },
            refreshDelta := 1, retryDelta := 0, redirectDelta := 0 }
      | none =>
        { store := clearAll st, proc := PState.done (Outcome.failure (some code)),
          refreshDelta := 0, retryDelta := 0, redirectDelta := 1 }
    else
      { store := st, proc := PState.done (Outcome.failure (some code)),
        refreshDelta := 0, retryDelta := 0, redirectDelta := 0 }
  | none =>
    { store := st, proc := PState.done (Outcome.failure none),
      refreshDelta := 0, retryDelta := 0, redirectDelta := 0 }

/-- One atomic segment of the event loop: deliver one network completion to
one request and run its handler to the next suspension point.  A resolved
response finishes the request; an error runs `onResponseError`; a resolved
refresh (lines 80-85) writes the new token with `setToken`, rewrites the
original request's authorization header, and re-issues it through the
request interceptor (`api(originalRequest)`); a failed refresh (lines 86-91)
clears the store, emits the redirect signal and rejects.  A delivery that
does not match the request's wait state leaves the world unchanged. -/
def stepProc (st : Store) (p : PState) (d : Delivery) : StepResult :=
  match p, d with
  | PState.sent _cfg, Delivery.response (CallResult.ok s) =>
    { store := st, proc := PState.done (Outcome.success s),
      refreshDelta := 0, retryDelta := 0, redirectDelta := 0 }
  | PState.sent cfg, Delivery.response (CallResult.httpError s) =>
    onResponseError st cfg (some s)
  | PState.sent cfg, Delivery.response CallResult.networkError =>
    onResponseError st cfg none
  | PState.retrying _cfg, Delivery.response (CallResult.ok s) =>
    { store := st, proc := PState.done (Outcome.success s),
      refreshDelta := 0, retryDelta := 0, redirectDelta := 0 }
  | PState.retrying cfg, Delivery.response (CallResult.httpError s) =>
    onResponseError st cfg (some s)
  | PState.retrying cfg, Delivery.response CallResult.networkError =>
    onResponseError st cfg none
  | PState.awaitingRefresh cfg, Delivery.refresh (RefreshResult.ok tok) =>
    { store := setToken st tok,
      proc := PState.retrying (requestInterceptor (setToken st tok)
        { cfg with headers := setHeader cfg.headers "Authorization" ("Bearer " ++ tok) }),
      refreshDelta := 0, retryDelta := 1, redirectDelta := 0 }
  | PState.awaitingRefresh _cfg, Delivery.refresh (RefreshResult.error s) =>
    { store := clearAll st, proc := PState.done (Outcome.failure s),
      refreshDelta := 0, retryDelta := 0, redirectDelta := 1 }
  | _, _ =>
    { store := st, proc := p, refreshDelta := 0, retryDelta := 0,
      redirectDelta := 0 }

/-- Global state of the client: the shared credential store, the state of
every in-flight request, and cumulative counts of refresh calls issued,
retried requests issued, and redirect-to-login signals emitted. -/
structure World where
  store : Store
  procs : List PState
  refreshCalls : Nat
  retryCalls : Nat
  redirects : Nat
deriving Repr, DecidableEq

/-- Deliver one network completion to the request at index `i` and commit
the effects of its atomic segment.  An index out of range leaves the world
unchanged. -/
def stepWorld (w : World) (i : Nat) (d : Delivery) : World :=
  match w.procs[i]? with
  | some p =>
    let r := stepProc w.store p d
    { store := r.store, procs := w.procs.set i r.proc,
      refreshCalls := w.refreshCalls + r.refreshDelta,
      retryCalls := w.retryCalls + r.retryDelta,
      redirects := w.redirects + r.redirectDelta }
  | none => w

/-- Run a schedule: a list of deliveries, each addressed to one in-flight
request.  The scheduler is the adversary: any interleaving of completions
is a valid schedule. -/
def runWorld (w : World) (sched : List (Nat × Delivery)) : World :=
  sched.foldl (fun w1 sd => stepWorld w1 sd.1 sd.2) w

/-- Shape of `error.response` as consumed by `apiUtils.handleError`. -/
structure ErrResponse where
  status : Nat
  message : Option String
  details : Option String
deriving Repr, DecidableEq

/-- Shape of an axios error as consumed by `apiUtils.handleError`:
`response` is present when the server answered, `requestMade` models the
presence of `error.request` (a request went out but no response arrived,
including deadline expiry), and `message` is `error.message`. -/
structure JsError where
  response : Option ErrResponse
  requestMade : Bool
  message : Option String
deriving Repr, DecidableEq

/-- Normalized error returned by `apiUtils.handleError`. -/
structure ErrorInfo where
  status : Nat
  message : String
  details : Option String
deriving Repr, DecidableEq

/-- JavaScript `a || d` for an optional string `a`: the default is used when
`a` is `null` or the (falsy) empty string. -/
def jsOr (a : Option String) (d : String) : String :=
  match a with
  | some m => if m = "" then d else m
  | none => d

/-- JavaScript `a || null` for an optional string `a`. -/
def jsOrNone (a : Option String) : Option String :=
  match a with
  | some m => if m = "" then none else some m
  | none => none

/-- Embedding of `apiUtils.handleError` (lines 303-327). -/
def handleError (e : JsError) : ErrorInfo :=
  match e.response with
  | some r =>
    { status := r.status, message := jsOr r.message "An error occurred",
      details := jsOrNone r.details }
  | none =>
    if e.requestMade then
      { status := 0, message := "Network error - please check your connection",
        details := none }
    else
      { status := 0, message := jsOr e.message "An unexpected error occurred",
        details := none }

/-- Stores reachable from the fresh (empty) store by the completed
store-mutating operations executed sequentially: the login write
(lines 109-111), the refresh-success write (line 81 in the interceptor and
line 140 in `authAPI.refreshToken`), and the full clear (logout line 122,
refresh failure line 88, missing refresh token line 94).  The refresh
constructor carries the hypothesis that a refresh token is present: the
interceptor path checks it at line 72, and on the `authAPI.refreshToken`
path a refresh call made with no stored refresh token presents an invalid
bearer credential, which the refresh endpoint contract rejects, so its
write never completes. -/
inductive Reachable : Store → Prop where
  | init : Reachable { token := none, refreshToken := none, userRaw := none }
  | login (st : Store) (a r uRaw : String) : Reachable st →
      Reachable (setUserRaw (setRefreshToken (setToken st a) r) uRaw)
  | refresh (st : Store) (a : String) : Reachable st →
      (getRefreshToken st).isSome = true → Reachable (setToken st a)
  | clear (st : Store) : Reachable st → Reachable (clearAll st)

/-- Trivial serializer on the unit profile, used to instantiate the
round-trip statement at a concrete input. -/
def unitStringify (_u : Unit) : String := "x"

/-- Left inverse of `unitStringify`. -/
def unitParse (s : String) : Option Unit :=
  if s = "x" then some Unit.unit else none

/-- Helper: the request interceptor only touches the header object; the
`_retry` marker of the configuration is preserved on every branch. -/
theorem requestInterceptor_retry (st : Store) (cfg : Config) :
    (requestInterceptor st cfg).retry = cfg.retry := by
  unfold requestInterceptor
  rcases getToken st with _ | t
  · rfl
  · by_cases h : t = "" <;> simp [h]

/-- Claim C7 counterexample: a store whose access-token entry is present
but holds the empty string.  The guard `if (token)` at line 52 is
JavaScript truthiness, false on the empty string, so the request proceeds
unmodified — no bearer header is attached although the credential entry is
present, refuting the presence-based claim. -/
theorem c7_counterexample :
    (Store.mk (some "") (some "rt") (some "usr")).token.isSome = true ∧
    requestInterceptor (Store.mk (some "") (some "rt") (some "usr"))
        { headers := [], retry := false } =
      { headers := [], retry := false } := by
  decide

/-- Claim C7 as amended: for every outgoing request, a present non-empty
access credential is attached as a bearer authorization header exactly once
(the header entry for `Authorization` after the interceptor is exactly one,
whatever the incoming configuration carried — in particular the retried
request, whose configuration already holds the header written at line 84,
still carries it once); with the credential entry absent, or present but
holding the falsy empty string, the configuration passes unmodified.  The
interceptor is a total function, so this stage never fails. -/
theorem c7_attach_header (st : Store) (cfg : Config) :
    (∀ t, getToken st = some t → t ≠ "" →
      (requestInterceptor st cfg).headers.filter
          (fun p => p.1 == "Authorization") =
        [("Authorization", "Bearer " ++ t)]) ∧
    (getToken st = some "" → requestInterceptor st cfg = cfg) ∧
    (getToken st = none → requestInterceptor st cfg = cfg) := by
  refine ⟨?_, ?_, ?_⟩
  · intro t ht hne
    simp [requestInterceptor, ht, hne, setHeader, List.filter_filter]
  · intro h
    simp [requestInterceptor, h]
  · intro h
    simp [requestInterceptor, h]

/-- Witness for C7 as amended at a concrete store and configuration. -/
theorem c7_attach_header_witness :
    getToken { token := some "tok", refreshToken := none, userRaw := none } =
      some "tok" ∧
    ("tok" : String) ≠ "" ∧
    (requestInterceptor
        { token := some "tok", refreshToken := none, userRaw := none }
        { headers := [], retry := false }).headers.filter
        (fun p => p.1 == "Authorization") =
      [("Authorization", "Bearer " ++ "tok")] :=
  ⟨rfl, by decide, (c7_attach_header _ _).1 "tok" rfl (by decide)⟩

/-- Claim C6: a successful refresh replaces only the access-credential
entry of the store; the refresh-credential entry and the cached user
profile are untouched by the refresh write (line 81 performs only
`tokenManager.setToken`). -/
theorem c6_refresh_frame (st : Store) (cfg : Config) (tok : String) :
    (stepProc st (PState.awaitingRefresh cfg)
        (Delivery.refresh (RefreshResult.ok tok))).store.refreshToken =
      st.refreshToken ∧
    (stepProc st (PState.awaitingRefresh cfg)
        (Delivery.refresh (RefreshResult.ok tok))).store.userRaw =
      st.userRaw ∧
    (stepProc st (PState.awaitingRefresh cfg)
        (Delivery.refresh (RefreshResult.ok tok))).store.token = some tok :=
  ⟨rfl, rfl, rfl⟩

/-- Claim C8: a failed call with no response received (network or deadline
failure) never initiates a refresh, never emits a signal and never touches
the store — the interceptor guard `error.response?.status === 401` is false
when `response` is absent — and `apiUtils.handleError` normalizes such an
error to status 0. -/
theorem c8_transport_no_refresh (st : Store) (cfg : Config) (m : Option String) :
    stepProc st (PState.sent cfg) (Delivery.response CallResult.networkError) =
      { store := st, proc := PState.done (Outcome.failure none),
        refreshDelta := 0, retryDelta := 0, redirectDelta := 0 } ∧
    stepProc st (PState.retrying cfg)
        (Delivery.response CallResult.networkError) =
      { store := st, proc := PState.done (Outcome.failure none),
        refreshDelta := 0, retryDelta := 0, redirectDelta := 0 } ∧
    handleError { response := none, requestMade := true, message := m } =
      { status := 0, message := "Network error - please check your connection",
        details := none } :=
  ⟨rfl, rfl, rfl⟩

/-- Claim C9: writing a credential record (the login write) and immediately
reading it back returns an identical record, and `clearAll` followed by the
reads returns absent for all three entries.  The hypotheses are the
platform contract of `JSON.stringify`/`JSON.parse`: parsing a serialized
profile returns the profile, and serialization of a profile is never the
empty string. -/
theorem c9_roundtrip {User : Type} (stringify : User → String)
    (parse : String → Option User) (st : Store) (a r : String) (u : User)
    (hrt : parse (stringify u) = some u) (hne : stringify u ≠ "") :
    getUser parse (writeRecord stringify st a r u) = some u ∧
    getToken (writeRecord stringify st a r u) = some a ∧
    getRefreshToken (writeRecord stringify st a r u) = some r ∧
    getToken (clearAll st) = none ∧
    getRefreshToken (clearAll st) = none ∧
    getUser parse (clearAll st) = none := by
  refine ⟨?_, rfl, rfl, rfl, rfl, rfl⟩
  show (if stringify u = "" then none else parse (stringify u)) = some u
  rw [if_neg hne, hrt]

/-- Witness for C9 at a concrete record and serializer. -/
theorem c9_roundtrip_witness :
    unitParse (unitStringify Unit.unit) = some Unit.unit ∧
    unitStringify Unit.unit ≠ "" ∧
    getUser unitParse
        (writeRecord unitStringify
          { token := none, refreshToken := none, userRaw := none }
          "a" "r" Unit.unit) =
      some Unit.unit :=
  ⟨by decide, by decide,
    (c9_roundtrip unitStringify unitParse
      { token := none, refreshToken := none, userRaw := none }
      "a" "r" Unit.unit (by decide) (by decide)).1⟩

/-- Claim C10 counterexample: a store whose access-token entry is present
but holds the empty string.  The entry is present, yet
`apiUtils.isAuthenticated` — JavaScript `!!` on the empty string — returns
`false`, so "true if and only if the entry is present" fails as stated. -/
theorem c10_counterexample :
    (Store.mk (some "") (some "rt") (some "usr")).token.isSome = true ∧
    isAuthenticated (Store.mk (some "") (some "rt") (some "usr")) = false := by
  decide

/-- Claim C10 as amended: `apiUtils.isAuthenticated` returns `true` exactly
when the access-token entry is present with a non-empty value, and it is
insensitive to the refresh-token and user-profile entries. -/
theorem c10_token_presence (st : Store) (r u r1 u1 : Option String) :
    (isAuthenticated st = true ↔ ∃ t, getToken st = some t ∧ t ≠ "") ∧
    isAuthenticated { token := st.token, refreshToken := r, userRaw := u } =
      isAuthenticated
        { token := st.token, refreshToken := r1, userRaw := u1 } := by
  constructor
  · unfold isAuthenticated getToken
    cases htok : st.token with
    | none => simp
    | some t =>
      by_cases h : t = ""
      · subst h; simp
      · simp [h]
  · unfold isAuthenticated getToken
    rfl

/-- Claim C5 counterexample: under two concurrent 401-handling requests,
one refresh failing (clearing the store) and the other succeeding, the
refresh-success write completes on the already-cleared store and persists
an access token alone — a partial record, neither all-present nor
all-absent, after a completed store-mutating operation. -/
theorem c5_counterexample :
    allPresent (runWorld
      { store := { token := some "old", refreshToken := some "rt",
                   userRaw := some "usr" },
        procs := [PState.sent { headers := [], retry := false },
                  PState.sent { headers := [], retry := false }],
        refreshCalls := 0, retryCalls := 0, redirects := 0 }
      [(0, Delivery.response (CallResult.httpError 401)),
       (1, Delivery.response (CallResult.httpError 401)),
       (0, Delivery.refresh (RefreshResult.error (some 401))),
       (1, Delivery.refresh (RefreshResult.ok "new"))]).store = false ∧
    allAbsent (runWorld
      { store := { token := some "old", refreshToken := some "rt",
                   userRaw := some "usr" },
        procs := [PState.sent { headers := [], retry := false },
                  PState.sent { headers := [], retry := false }],
        refreshCalls := 0, retryCalls := 0, redirects := 0 }
      [(0, Delivery.response (CallResult.httpError 401)),
       (1, Delivery.response (CallResult.httpError 401)),
       (0, Delivery.refresh (RefreshResult.error (some 401))),
       (1, Delivery.refresh (RefreshResult.ok "new"))]).store = false := by
  decide

/-- Claim C5 as amended: for the sequential store-mutating operations
(login write, refresh-success write with a refresh credential present,
logout/refresh-failure clear) every reachable persisted record is
all-present or all-absent; the all-or-nothing invariant holds whenever no
concurrent 401 handling interleaves with the operation. -/
theorem c5_sequential_invariant (st : Store) (h : Reachable st) :
    allPresent st = true ∨ allAbsent st = true := by
  induction h with
  | init => right; rfl
  | login st1 a r uRaw _hst _ih => left; rfl
  | refresh st1 a _hst hrt ih =>
    rcases ih with hp | ha
    · left
      simp only [allPresent, setToken, Bool.and_eq_true] at hp ⊢
      exact ⟨⟨rfl, hp.1.2⟩, hp.2⟩
    · exfalso
      simp only [allAbsent, Bool.and_eq_true, Option.isNone_iff_eq_none] at ha
      rw [getRefreshToken, ha.1.2] at hrt
      simp at hrt
  | clear st1 _hst _ih => right; rfl

/-- Witness for C5 as amended: the record written by a login from the fresh
store is reachable and all-present. -/
theorem c5_sequential_invariant_witness :
    Reachable (setUserRaw (setRefreshToken (setToken
      { token := none, refreshToken := none, userRaw := none } "a") "r") "usr") ∧
    (allPresent (setUserRaw (setRefreshToken (setToken
        { token := none, refreshToken := none, userRaw := none } "a") "r") "usr") =
        true ∨
      allAbsent (setUserRaw (setRefreshToken (setToken
        { token := none, refreshToken := none, userRaw := none } "a") "r") "usr") =
        true) :=
  ⟨Reachable.login _ "a" "r" "usr" Reachable.init,
    c5_sequential_invariant _ (Reachable.login _ "a" "r" "usr" Reachable.init)⟩

/-- Claim C2: a request that receives a 401, has not been retried, and
finds a refresh credential in the store triggers exactly one refresh call
and exactly one retried request when the refresh succeeds, and the caller
observes the retried request's outcome — whatever it is — rather than the
original 401.  A present refresh credential is a truthy one: the guard
`if (refreshToken)` at line 72 treats the empty string as absent, exactly
as the spec's absent/present dichotomy does, hence the non-emptiness
hypothesis. -/
theorem c2_single_refresh_retry (st : Store) (cfg : Config) (rt tok : String)
    (res : CallResult) (hr : cfg.retry = false)
    (hrt : getRefreshToken st = some rt) (hne : rt ≠ "") :
    runWorld
      { store := st, procs := [PState.sent cfg], refreshCalls := 0,
        retryCalls := 0, redirects := 0 }
      [(0, Delivery.response (CallResult.httpError 401)),
       (0, Delivery.refresh (RefreshResult.ok tok)),
       (0, Delivery.response res)] =
    { store := setToken st tok, procs := [PState.done (respOutcome res)],
      refreshCalls := 1, retryCalls := 1, redirects := 0 } := by
  cases res <;>
    simp [runWorld, stepWorld, stepProc, onResponseError, hr, hrt, hne,
      requestInterceptor_retry, respOutcome]

/-- Witness for C2 at a concrete store, configuration and retry outcome. -/
theorem c2_single_refresh_retry_witness :
    ({ headers := [], retry := false } : Config).retry = false ∧
    getRefreshToken
        { token := some "old", refreshToken := some "rt", userRaw := some "usr" } =
      some "rt" ∧
    ("rt" : String) ≠ "" ∧
    runWorld
      { store := { token := some "old", refreshToken := some "rt",
                   userRaw := some "usr" },
        procs := [PState.sent { headers := [], retry := false }],
        refreshCalls := 0, retryCalls := 0, redirects := 0 }
      [(0, Delivery.response (CallResult.httpError 401)),
       (0, Delivery.refresh (RefreshResult.ok "new")),
       (0, Delivery.response (CallResult.ok 200))] =
    { store := setToken
        { token := some "old", refreshToken := some "rt", userRaw := some "usr" }
        "new",
      procs := [PState.done (respOutcome (CallResult.ok 200))],
      refreshCalls := 1, retryCalls := 1, redirects := 0 } :=
  ⟨rfl, rfl, by decide,
    c2_single_refresh_retry
      { token := some "old", refreshToken := some "rt", userRaw := some "usr" }
      { headers := [], retry := false } "rt" "new" (CallResult.ok 200) rfl rfl
      (by decide)⟩

/-- Claim C3: when the single retry also receives a 401, the `_retry`
marker set at line 69 blocks the refresh branch, so the run performs
exactly one refresh and one retry in total, the second 401 is propagated
to the caller, and the finished request is terminal: no further delivery
changes the world (no second retry, no second refresh, ever).  The retry
presupposes the refresh was issued, so the refresh credential is a truthy
one — non-empty, as the falsy guard at line 72 requires. -/
theorem c3_no_second_retry (st : Store) (cfg : Config) (rt tok : String)
    (hr : cfg.retry = false) (hrt : getRefreshToken st = some rt)
    (hne : rt ≠ "") :
    runWorld
      { store := st, procs := [PState.sent cfg], refreshCalls := 0,
        retryCalls := 0, redirects := 0 }
      [(0, Delivery.response (CallResult.httpError 401)),
       (0, Delivery.refresh (RefreshResult.ok tok)),
       (0, Delivery.response (CallResult.httpError 401))] =
    { store := setToken st tok,
      procs := [PState.done (Outcome.failure (some 401))],
      refreshCalls := 1, retryCalls := 1, redirects := 0 } ∧
    (∀ i d, stepWorld
        { store := setToken st tok,
          procs := [PState.done (Outcome.failure (some 401))],
          refreshCalls := 1, retryCalls := 1, redirects := 0 } i d =
      { store := setToken st tok,
        procs := [PState.done (Outcome.failure (some 401))],
        refreshCalls := 1, retryCalls := 1, redirects := 0 }) := by
  constructor
  · simp [runWorld, stepWorld, stepProc, onResponseError, hr, hrt, hne,
      requestInterceptor_retry]
  · intro i d
    match i with
    | 0 =>
      cases d with
      | response res => cases res <;> simp [stepWorld, stepProc]
      | refresh res => cases res <;> simp [stepWorld, stepProc]
    | Nat.succ n => simp [stepWorld]

/-- Witness for C3 at a concrete store and configuration. -/
theorem c3_no_second_retry_witness :
    ({ headers := [], retry := false } : Config).retry = false ∧
    getRefreshToken
        { token := some "old", refreshToken := some "rt", userRaw := some "usr" } =
      some "rt" ∧
    ("rt" : String) ≠ "" ∧
    runWorld
      { store := { token := some "old", refreshToken := some "rt",
                   userRaw := some "usr" },
        procs := [PState.sent { headers := [], retry := false }],
        refreshCalls := 0, retryCalls := 0, redirects := 0 }
      [(0, Delivery.response (CallResult.httpError 401)),
       (0, Delivery.refresh (RefreshResult.ok "new")),
       (0, Delivery.response (CallResult.httpError 401))] =
    { store := setToken
        { token := some "old", refreshToken := some "rt", userRaw := some "usr" }
        "new",
      procs := [PState.done (Outcome.failure (some 401))],
      refreshCalls := 1, retryCalls := 1, redirects := 0 } :=
  ⟨rfl, rfl, by decide,
    (c3_no_second_retry
      { token := some "old", refreshToken := some "rt", userRaw := some "usr" }
      { headers := [], retry := false } "rt" "new" rfl rfl (by decide)).1⟩

/-- Claim C1 counterexample: two concurrent requests both receive a 401
against the same expired credential; the handlers run independently (there
is no shared refresh-in-progress marker in the interceptor), so the run
issues two refresh calls, not one, and afterwards both requests are
simultaneously awaiting their own refresh call — two refresh calls against
the same refresh credential concurrently in flight. -/
theorem c1_counterexample :
    runWorld
      { store := { token := some "expired", refreshToken := some "rt",
                   userRaw := some "usr" },
        procs := [PState.sent { headers := [], retry := false },
                  PState.sent { headers := [], retry := false }],
        refreshCalls := 0, retryCalls := 0, redirects := 0 }
      [(0, Delivery.response (CallResult.httpError 401)),
       (1, Delivery.response (CallResult.httpError 401))] =
    { store := { token := some "expired", refreshToken := some "rt",
                 userRaw := some "usr" },
      procs := [PState.awaitingRefresh { headers := [], retry := true },
                PState.awaitingRefresh { headers := [], retry := true }],
      refreshCalls := 2, retryCalls := 0, redirects := 0 } := by
  decide

/-- Claim C1 as amended: each of the N concurrent requests that receives a
401 (not yet retried, a truthy — non-empty — refresh credential present in
the store, as the falsy guard at line 72 requires) initiates its own
refresh call — N refresh calls in total for that credential generation,
which may be concurrently in flight — and each request is retried with the
access credential returned by the refresh call it itself awaited. -/
theorem c1_per_request_refresh (w : World) (i : Nat) (cfg : Config)
    (st : Store) (c : Config) (rt tok : String)
    (hp : w.procs[i]? = some (PState.sent cfg)) (hr : cfg.retry = false)
    (hrt : getRefreshToken w.store = some rt) (hne : rt ≠ "") :
    stepWorld w i (Delivery.response (CallResult.httpError 401)) =
      { store := w.store,
        procs := w.procs.set i (PState.awaitingRefresh { cfg with retry := true }),
        refreshCalls := w.refreshCalls + 1, retryCalls := w.retryCalls,
        redirects := w.redirects } ∧
    stepProc st (PState.awaitingRefresh c)
        (Delivery.refresh (RefreshResult.ok tok)) =
      { store := setToken st tok,
        proc := PState.retrying (requestInterceptor (setToken st tok)
          { c with
            headers := setHeader c.headers "Authorization" ("Bearer " ++ tok) }),
        refreshDelta := 0, retryDelta := 1, redirectDelta := 0 } := by
  constructor
  · simp [stepWorld, hp, stepProc, onResponseError, hr, hrt, hne]
  · rfl

/-- Witness for C1 as amended at a concrete one-request world. -/
theorem c1_per_request_refresh_witness :
    ({ store := { token := some "expired", refreshToken := some "rt",
                  userRaw := some "usr" },
       procs := [PState.sent { headers := [], retry := false }],
       refreshCalls := 0, retryCalls := 0, redirects := 0 } : World).procs[0]? =
      some (PState.sent { headers := [], retry := false }) ∧
    stepWorld
      { store := { token := some "expired", refreshToken := some "rt",
                   userRaw := some "usr" },
        procs := [PState.sent { headers := [], retry := false }],
        refreshCalls := 0, retryCalls := 0, redirects := 0 }
      0 (Delivery.response (CallResult.httpError 401)) =
    { store := { token := some "expired", refreshToken := some "rt",
                 userRaw := some "usr" },
      procs := [PState.sent { headers := [], retry := false }].set 0
        (PState.awaitingRefresh { headers := [], retry := true }),
      refreshCalls := 0 + 1, retryCalls := 0, redirects := 0 } :=
  ⟨rfl,
    (c1_per_request_refresh
      { store := { token := some "expired", refreshToken := some "rt",
                   userRaw := some "usr" },
        procs := [PState.sent { headers := [], retry := false }],
        refreshCalls := 0, retryCalls := 0, redirects := 0 }
      0 { headers := [], retry := false }
      { token := none, refreshToken := none, userRaw := none }
      { headers := [], retry := false } "rt" "t" rfl rfl rfl (by decide)).1⟩

/-- Claim C4 counterexample: two concurrent requests both fail refresh in
the same failed session; each failing handler emits its own redirect
signal, so the run emits two "session ended" signals, not exactly one. -/
theorem c4_counterexample :
    (runWorld
      { store := { token := some "expired", refreshToken := some "rt",
                   userRaw := some "usr" },
        procs := [PState.sent { headers := [], retry := false },
                  PState.sent { headers := [], retry := false }],
        refreshCalls := 0, retryCalls := 0, redirects := 0 }
      [(0, Delivery.response (CallResult.httpError 401)),
       (1, Delivery.response (CallResult.httpError 401)),
       (0, Delivery.refresh (RefreshResult.error (some 401))),
       (1, Delivery.refresh (RefreshResult.error (some 401)))]).redirects =
      2 := by
  decide

/-- Claim C4 as amended: on refresh failure, and likewise on a 401 with no
refresh credential present, the handler clears all three store entries
together and emits the "session ended" signal in the same atomic segment,
with the cleared store installed when the segment commits — so any
subsequent read observes unauthenticated; the signal is emitted exactly
once per failing request (hence N times when N concurrent requests fail),
not once per failed session. -/
theorem c4_clear_before_signal (st st1 : Store) (cfg c : Config)
    (s : Option Nat) (hrt : getRefreshToken st1 = none)
    (hr : c.retry = false) :
    stepProc st (PState.awaitingRefresh cfg)
        (Delivery.refresh (RefreshResult.error s)) =
      { store := clearAll st, proc := PState.done (Outcome.failure s),
        refreshDelta := 0, retryDelta := 0, redirectDelta := 1 } ∧
    stepProc st1 (PState.sent c)
        (Delivery.response (CallResult.httpError 401)) =
      { store := clearAll st1, proc := PState.done (Outcome.failure (some 401)),
        refreshDelta := 0, retryDelta := 0, redirectDelta := 1 } ∧
    allAbsent (clearAll st) = true := by
  refine ⟨rfl, ?_, rfl⟩
  simp [stepProc, onResponseError, hr, hrt]

/-- Witness for C4 as amended at a concrete store. -/
theorem c4_clear_before_signal_witness :
    getRefreshToken { token := some "expired", refreshToken := none,
                      userRaw := some "usr" } = none ∧
    stepProc { token := some "old", refreshToken := some "rt",
               userRaw := some "usr" }
        (PState.awaitingRefresh { headers := [], retry := true })
        (Delivery.refresh (RefreshResult.error (some 401))) =
      { store := clearAll { token := some "old", refreshToken := some "rt",
                            userRaw := some "usr" },
        proc := PState.done (Outcome.failure (some 401)),
        refreshDelta := 0, retryDelta := 0, redirectDelta := 1 } :=
  ⟨rfl,
    (c4_clear_before_signal
      { token := some "old", refreshToken := some "rt", userRaw := some "usr" }
      { token := some "expired", refreshToken := none, userRaw := some "usr" }
      { headers := [], retry := true } { headers := [], retry := false }
      (some 401) rfl rfl).1⟩

end ApiClient
